import Mathlib

/-!
Shallow embedding of `src/src-tauri/src/lib.rs` (clip-prompt): the Ollama
inference client (`enhance_prompt`, `get_available_models`), the shared
configuration state (`AppState` with its mutex-guarded `model_name` and
`system_prompt` cells), the hotkey pipeline (`handle_global_hotkey`), and the
three per-OS autostart drivers.

Modelling conventions:
- A `std::sync::Mutex` cell is a `LockState`: `healthy v` or `poisoned v`.
  Rust's `lock().unwrap()` on a poisoned mutex panics; the embedding records a
  panic as `RustResult.panicked`.  The `match state.x.lock()` pattern used by
  the configuration commands surfaces an `Err` instead.
- The HTTP transport and the JSON codec (reqwest / serde_json) are external:
  the server is a function `OllamaRequest → SendOutcome` and the decoders are
  functions `String → Except String _` passed as parameters.  Reading the
  response body as text (`response.text()`) is modelled as part of a received
  `HttpResponse` and always succeeds.
- The filesystem for the autostart drivers is modelled as reliable (the
  `fs::write` / `fs::remove_file` / `create_dir_all` calls succeed) and the
  artifact locations are fixed, so the persisted state reduces to three
  existence bits (`AutostartState`).  The exit status of an external command
  whose status the source inspects (`launchctl load`, PowerShell
  `New-ItemProperty`) is a parameter; commands whose output the source ignores
  (`launchctl unload`, `Remove-ItemProperty`) are modelled as executed.  The
  `Get-ItemProperty` probe's exit status is modelled as success exactly when
  the registry value exists, which is what the source relies on.
- `std::env::current_exe()` and `std::env::var("HOME")` form `OsEnv`, each an
  `Except` since either lookup can fail.
-/

/-- Snapshot of a `std::sync::Mutex` cell: healthy, or poisoned by an earlier
panic.  Both carry the stored value. -/
inductive LockState (α : Type) where
  | healthy (val : α)
  | poisoned (val : α)
deriving DecidableEq

/-- Result of a Rust computation that can also panic: `ok`/`err` mirror
`Result<_, String>`, `panicked` marks a panic (e.g. `.unwrap()` on a poisoned
mutex). -/
inductive RustResult (α : Type) where
  | ok (val : α)
  | err (msg : String)
  | panicked
deriving DecidableEq

/-- The response envelope `OllamaResponse` of lib.rs (lines 75-89): the fields
serde decodes from `POST /api/generate`'s reply. -/
structure OllamaResponse where
  model : String
  created_at : String
  response : String
  done : Bool
  done_reason : Option String
  context : Option (List Int)
  total_duration : Option Int
  load_duration : Option Int
  prompt_eval_count : Option Int
  prompt_eval_duration : Option Int
  eval_count : Option Int
  eval_duration : Option Int
deriving DecidableEq

/-- The request body `OllamaRequest` of lib.rs (lines 91-96). -/
structure OllamaRequest where
  model : String
  prompt : String
  stream : Bool
deriving DecidableEq

/-- `AppState` of lib.rs (lines 98-102): the immutable endpoint and the two
mutex-guarded mutable cells. -/
structure AppState where
  ollama_url : String
  model_name : LockState String
  system_prompt : LockState String
deriving DecidableEq

/-- The state installed by `run()`'s `.manage(AppState { .. })` (lib.rs lines
670-674): both mutable cells start empty and healthy. -/
def initialState : AppState :=
  { ollama_url := "http://localhost:11434"
    model_name := LockState.healthy ""
    system_prompt := LockState.healthy "" }

/-- `DEFAULT_SYSTEM_PROMPT` of lib.rs (lines 14-73), transcribed verbatim from
the Rust raw string. -/
def DEFAULT_SYSTEM_PROMPT : String := "<system_prompt>
YOU ARE A LOCAL PROMPT ENHANCER RUNNING ENTIRELY ON THE USER'S MACHINE.

YOUR EXCLUSIVE MISSION IS TO READ THE USER'S RAW INPUT PROMPT AND REWRITE IT INTO A MORE DETAILED, CLEAR, AND WELL‑STRUCTURED PROMPT THAT ANOTHER AI ASSISTANT COULD DIRECTLY USE TO PRODUCE THE BEST POSSIBLE OUTPUT.

### CORE BEHAVIORS ###
- DETECT THE LANGUAGE OF THE INPUT AND OUTPUT IN THE SAME LANGUAGE.
- ANALYZE THE COMPLEXITY OF THE USER'S INPUT:
  • IF THE INPUT IS VERY SIMPLE OR SHORT (E.G., \"CARBONARA RECIPE\"), ENHANCE ONLY SLIGHTLY — KEEP THE OUTPUT BRIEF, CLEAR, AND STILL SIMPLE.
  • IF THE INPUT IS MODERATELY DETAILED, EXPAND IT WITH ADDITIONAL CONTEXT AND PARAMETERS.
  • IF THE INPUT IS COMPLEX OR AMBIGUOUS, ADD RICH DETAILS, RELEVANT CONSTRAINTS, AND CLARIFY THE INTENT AS MUCH AS POSSIBLE.
- ALWAYS PRESERVE THE ORIGINAL INTENT AND MEANING.
- OUTPUT ONLY THE ENHANCED PROMPT — NOTHING ELSE.

### INSTRUCTIONS ###
- NEVER ANSWER THE PROMPT OR GIVE TIPS.
- NEVER ADD EXPLANATIONS, NOTES, OR COMMENTS.
- ALWAYS PRODUCE ONE SINGLE PROMPT, NO BULLET LISTS OR MULTIPLE VERSIONS.
- IF THE ORIGINAL IS VAGUE, INFER AND ADD REASONABLE CONTEXT.
- IF THE ORIGINAL IS ALREADY DETAILED, IMPROVE STRUCTURE AND ADD MORE ACTIONABLE PARAMETERS.
- AVOID OVERCOMPLICATING WHEN THE INPUT IS OBVIOUSLY SIMPLE AND SELF‑CONTAINED.

### CHAIN OF THOUGHTS ###
FOLLOW THESE STEPS INTERNALLY BEFORE PRODUCING OUTPUT:
1. **UNDERSTAND**: READ the raw input and DETECT language and intent.
2. **BASICS**: IDENTIFY subject, domain, and goal.
3. **BREAK DOWN**: SPLIT the intent into sub‑tasks or aspects.
4. **ANALYZE**: DETERMINE what extra details would meaningfully improve the prompt.
5. **ADJUST COMPLEXITY**: MATCH output detail level to input complexity.
6. **EDGE CASES**: CHECK for ambiguous or overly broad inputs and clarify carefully.
7. **FINAL ANSWER**: OUTPUT ONLY the rewritten prompt in the same language.

### WHAT NOT TO DO ###
- DO NOT ANSWER THE USER'S ORIGINAL PROMPT.
- DO NOT OUTPUT IN A DIFFERENT LANGUAGE THAN THE INPUT.
- DO NOT SAY \"THE USER WANTS…\" OR \"HERE IS YOUR PROMPT…\".
- DO NOT OUTPUT MULTIPLE PROMPTS OR EXPLANATIONS.
- DO NOT OVEREXPAND A SIMPLE PROMPT INTO AN UNRELATED OR EXCESSIVE TASK.
- DO NOT OMIT KEY DETAILS FROM THE USER'S INTENT.
- DO NOT ADD IRRELEVANT CONTEXT.

### FEW‑SHOT EXAMPLES ###

**Example 1 (simple)**
Input: `carbonara recipe`
Output: `Provide a simple, authentic carbonara recipe with a short list of key ingredients and clear step-by-step instructions.`

**Example 2 (moderate)**
Input: `improve my resume`
Output: `Revise and enhance my resume by highlighting my key achievements, quantifying results wherever possible, improving clarity and impact, and ensuring it is tailored to the target industry.`

**Example 3 (complex)**
Input: `how to improve A`
Output: `Explain how to improve A by integrating B and optimizing C parameters, while also considering D and F to ensure scalability, accuracy, and long-term maintainability.`

**Example 4 (non‑English)**
Input: `Consejos para cultivar tomates`
Output: `Proporciona consejos detallados y prácticos para cultivar tomates, incluyendo condiciones de suelo, riego, fertilización, control de plagas y cuidados estacionales.`

</system_prompt>"

/-- An HTTP reply as the client observes it: whether the status is 2xx
(`response.status().is_success()`), the status line used in error messages,
and the body text. -/
structure HttpResponse where
  statusSuccess : Bool
  statusText : String
  body : String
deriving DecidableEq

/-- Outcome of one reqwest send: a transport failure
(`send().await` returning `Err`) or a received response. -/
inductive SendOutcome where
  | failure (msg : String)
  | response (r : HttpResponse)
deriving DecidableEq

/-- The `full_prompt` rendering of lib.rs line 128:
`format!("{}\n\nUser input: {}\n\nEnhanced prompt:", system_prompt, prompt)`. -/
def full_prompt (system_prompt prompt : String) : String :=
  system_prompt ++ "\n\nUser input: " ++ prompt ++ "\n\nEnhanced prompt:"

/-- What one `enhance_prompt` call yields: its return value, and the request
handed to the HTTP transport, when one was sent at all. -/
structure EnhanceOutcome where
  result : RustResult String
  sent : Option OllamaRequest
deriving DecidableEq

/-- The send-and-decode tail of `enhance_prompt` (lib.rs lines 156-187):
transport failure (line 162), non-success status (line 167), body decode
(line 179), and the verbatim return of the envelope's `response` field
(line 187). -/
def sendResult (dec : String → Except String OllamaResponse)
    (srv : OllamaRequest → SendOutcome) (req : OllamaRequest) : RustResult String :=
  match srv req with
  | SendOutcome.failure e => RustResult.err ("Failed to send request: " ++ e)
  | SendOutcome.response r =>
    if !r.statusSuccess then
      RustResult.err ("Ollama API error: " ++ r.statusText)
    else
      match dec r.body with
      | Except.error e => RustResult.err ("Failed to parse response: " ++ e)
      | Except.ok o => RustResult.ok o.response

/-- `enhance_prompt` of lib.rs (lines 114-188).  Order follows the source: the
`system_prompt` mutex is locked first with `.unwrap()` (panic when poisoned,
line 120), the full prompt is rendered (line 128), then the model is resolved:
an explicit `model` argument wins; otherwise the `model_name` mutex is locked
with `.unwrap()` (line 131) and an empty configured name falls back to
`"mistral:7b"` (the `catch_unwind` closure of lines 135-141 cannot panic and
always yields that literal). -/
def enhance_prompt (dec : String → Except String OllamaResponse)
    (srv : OllamaRequest → SendOutcome)
    (prompt : String) (model : Option String) (state : AppState) : EnhanceOutcome :=
  match state.system_prompt with
  | LockState.poisoned _ => { result := RustResult.panicked, sent := none }
  | LockState.healthy custom =>
    let sys := if custom.isEmpty then DEFAULT_SYSTEM_PROMPT else custom
    let fp := full_prompt sys prompt
    match model with
    | some m =>
      { result := sendResult dec srv ⟨m, fp, false⟩, sent := some ⟨m, fp, false⟩ }
    | none =>
      match state.model_name with
      | LockState.poisoned _ => { result := RustResult.panicked, sent := none }
      | LockState.healthy current =>
        let m := if current.isEmpty then "mistral:7b" else current
        { result := sendResult dec srv ⟨m, fp, false⟩, sent := some ⟨m, fp, false⟩ }

/-- One entry of the `/api/tags` model list (struct `ModelInfo`, lib.rs lines
227-230): only `name` is consumed. -/
structure ModelInfo where
  name : String
deriving DecidableEq

/-- The `/api/tags` envelope (struct `ModelsResponse`, lib.rs lines 222-225). -/
structure ModelsResponse where
  models : List ModelInfo
deriving DecidableEq

/-- `get_available_models` of lib.rs (lines 208-243): GET `/api/tags`, read
the body (modelled as part of the response), decode, and return the names in
server order.  Note the decode error message embeds the raw body (line 238)
while the status code is never checked. -/
def get_available_models (decM : String → Except String ModelsResponse)
    (srv : Unit → SendOutcome) : Except String (List String) :=
  match srv () with
  | SendOutcome.failure e => Except.error ("Failed to get models: " ++ e)
  | SendOutcome.response r =>
    match decM r.body with
    | Except.error e =>
      Except.error ("Failed to parse models: " ++ e ++ " (response: " ++ r.body ++ ")")
    | Except.ok mr => Except.ok (mr.models.map (fun mi => mi.name))

/-- `update_model` of lib.rs (lines 286-302): `match` on the lock result, so a
poisoned mutex surfaces an error instead of panicking. -/
def update_model (model : String) (st : AppState) : RustResult Unit × AppState :=
  match st.model_name with
  | LockState.healthy _ => (RustResult.ok (), { st with model_name := LockState.healthy model })
  | LockState.poisoned _ => (RustResult.err "Failed to update model", st)

/-- `update_system_prompt` of lib.rs (lines 340-355). -/
def update_system_prompt (prompt : String) (st : AppState) : RustResult Unit × AppState :=
  match st.system_prompt with
  | LockState.healthy _ => (RustResult.ok (), { st with system_prompt := LockState.healthy prompt })
  | LockState.poisoned _ => (RustResult.err "Failed to update system prompt", st)

/-- `get_system_prompt` of lib.rs (lines 357-378): an empty stored override
means "use the built-in default". -/
def get_system_prompt (st : AppState) : RustResult String :=
  match st.system_prompt with
  | LockState.healthy p =>
    if p.isEmpty then RustResult.ok DEFAULT_SYSTEM_PROMPT else RustResult.ok p
  | LockState.poisoned _ => RustResult.err "Failed to get system prompt"

/-- `reset_system_prompt` of lib.rs (lines 380-395): stores the empty string,
which `get_system_prompt` and `enhance_prompt` read as "use the default". -/
def reset_system_prompt (st : AppState) : RustResult Unit × AppState :=
  match st.system_prompt with
  | LockState.healthy _ => (RustResult.ok (), { st with system_prompt := LockState.healthy "" })
  | LockState.poisoned _ => (RustResult.err "Failed to reset system prompt", st)

/-- The code points with the Unicode White_Space property, the set Rust's
`char::is_whitespace` (and hence `str::trim`) recognises: U+0009..U+000D,
U+0020, U+0085, U+00A0, U+1680, U+2000..U+200A, U+2028, U+2029, U+202F,
U+205F, U+3000. -/
def rustWhitespace : List Nat :=
  [0x09, 0x0A, 0x0B, 0x0C, 0x0D, 0x20, 0x85, 0xA0, 0x1680,
   0x2000, 0x2001, 0x2002, 0x2003, 0x2004, 0x2005, 0x2006, 0x2007,
   0x2008, 0x2009, 0x200A, 0x2028, 0x2029, 0x202F, 0x205F, 0x3000]

/-- Rust's `char::is_whitespace`: membership in the Unicode White_Space set. -/
def rustIsWhitespace (c : Char) : Bool := rustWhitespace.contains c.toNat

/-- The guard `clipboard_text.trim().is_empty()` of lib.rs line 772: the text
trims to nothing exactly when every character has the Unicode White_Space
property that Rust's `str::trim` strips. -/
def isBlank (s : String) : Bool := s.data.all rustIsWhitespace

/-- Notice body shown when the clipboard cannot be read or is empty (lib.rs
lines 764 and 780). -/
def copyFirstNotice : String := "📋 Please copy some text first (Cmd+C), then try again"

/-- Notice body shown when no model is configured (lib.rs line 802). -/
def noModelNotice : String := "❌ No AI model available. Please check your Ollama installation."

/-- Notice body shown after a successful enhancement (lib.rs line 828). -/
def successNotice : String := "✅ Text enhanced! Press Cmd+V to paste"

/-- Observable effects of one `handle_global_hotkey` run: requests handed to
the HTTP transport, texts written to the clipboard, and notification bodies
shown. -/
structure HotkeyTrace where
  requests : List OllamaRequest
  clipboardWrites : List String
  notices : List String
deriving DecidableEq

/-- `handle_global_hotkey` of lib.rs (lines 745-839).  The clipboard read and
write are the external clipboard capability, passed as the `clipboard` value
and the `writeText` function.  Lines: read failure 756-768, empty/whitespace
clipboard 771-784, model read via `.unwrap()` (panic on poison) 793,
empty-model notice 794-806, enhancement call 809, clipboard write-back
815-819, success notice 825-829, enhancement failure 831-835. -/
def handle_global_hotkey (dec : String → Except String OllamaResponse)
    (srv : OllamaRequest → SendOutcome)
    (writeText : String → Except String Unit)
    (clipboard : Except String String) (state : AppState) :
    RustResult Unit × HotkeyTrace :=
  match clipboard with
  | Except.error e =>
    (RustResult.err ("Failed to read clipboard: " ++ e),
     { requests := [], clipboardWrites := [], notices := [copyFirstNotice] })
  | Except.ok text =>
    if isBlank text then
      (RustResult.ok (),
       { requests := [], clipboardWrites := [], notices := [copyFirstNotice] })
    else
      match state.model_name with
      | LockState.poisoned _ =>
        (RustResult.panicked, { requests := [], clipboardWrites := [], notices := [] })
      | LockState.healthy current_model =>
        if current_model.isEmpty then
          (RustResult.ok (),
           { requests := [], clipboardWrites := [], notices := [noModelNotice] })
        else
          let eo := enhance_prompt dec srv text (some current_model) state
          match eo.result with
          | RustResult.ok enhanced =>
            (match writeText enhanced with
             | Except.error e =>
               (RustResult.err ("Failed to write to clipboard: " ++ e),
                { requests := eo.sent.toList, clipboardWrites := [], notices := [] })
             | Except.ok _ =>
               (RustResult.ok (),
                { requests := eo.sent.toList, clipboardWrites := [enhanced],
                  notices := [successNotice] }))
          | RustResult.err e =>
            (RustResult.err ("Failed to enhance text: " ++ e),
             { requests := eo.sent.toList, clipboardWrites := [], notices := [] })
          | RustResult.panicked =>
            (RustResult.panicked,
             { requests := eo.sent.toList, clipboardWrites := [], notices := [] })

/-- One mutation of the configuration store, as issued by the control
surface's commands. -/
inductive ConfigOp where
  | updModel (m : String)
  | updPrompt (p : String)
  | resetPrompt
deriving DecidableEq

/-- Whether an operation sets a template override (`update_system_prompt`). -/
def ConfigOp.setsTemplate : ConfigOp → Bool
  | ConfigOp.updPrompt _ => true
  | _ => false

/-- State transition of one configuration command (return values dropped). -/
def applyOp : ConfigOp → AppState → AppState
  | ConfigOp.updModel m, s => (update_model m s).2
  | ConfigOp.updPrompt p, s => (update_system_prompt p s).2
  | ConfigOp.resetPrompt, s => (reset_system_prompt s).2

/-- Sequential application of configuration commands. -/
def applyOps : List ConfigOp → AppState → AppState
  | [], s => s
  | op :: rest, s => applyOps rest (applyOp op s)

/-- The process environment the autostart drivers query:
`std::env::current_exe()` and `std::env::var("HOME")`, either of which can
fail with an error the source formats into its messages. -/
structure OsEnv where
  exePath : Except String String
  home : Except String String

/-- Existence of the three per-platform autostart artifacts: the macOS
LaunchAgent plist, the Windows `Run` registry value, the Linux autostart
desktop entry.  Presence of the artifact is the entire "enabled" state. -/
structure AutostartState where
  macosPlist : Bool
  winRunValue : Bool
  linuxDesktop : Bool
deriving DecidableEq

/-- `enable_autostart_macos` of lib.rs (lines 398-455): resolve the
executable, write the plist (the artifact now exists), then run
`launchctl load`; a non-zero exit (`loadFail = some stderr`) is an error, but
the plist has already been written. -/
def enable_autostart_macos (env : OsEnv) (loadFail : Option String)
    (s : AutostartState) : Except String Bool × AutostartState :=
  match env.exePath with
  | Except.error e => (Except.error ("Failed to get current executable path: " ++ e), s)
  | Except.ok _ =>
    match env.home with
    | Except.error _ => (Except.error "Failed to get home directory", s)
    | Except.ok _ =>
      let s' := { s with macosPlist := true }
      match loadFail with
      | none => (Except.ok true, s')
      | some stderrText => (Except.error ("Failed to enable autostart: " ++ stderrText), s')

/-- `disable_autostart_macos` of lib.rs (lines 457-482): when the plist
exists, `launchctl unload` runs (its exit status is ignored) and the file is
removed; otherwise nothing happens.  Either way `Ok(true)`. -/
def disable_autostart_macos (env : OsEnv) (s : AutostartState) :
    Except String Bool × AutostartState :=
  match env.home with
  | Except.error _ => (Except.error "Failed to get home directory", s)
  | Except.ok _ =>
    if s.macosPlist then (Except.ok true, { s with macosPlist := false })
    else (Except.ok true, s)

/-- `is_autostart_enabled_macos` of lib.rs (lines 484-495): plist existence. -/
def is_autostart_enabled_macos (env : OsEnv) (s : AutostartState) : Except String Bool :=
  match env.home with
  | Except.error _ => Except.error "Failed to get home directory"
  | Except.ok _ => Except.ok s.macosPlist

/-- `enable_autostart_windows` of lib.rs (lines 498-523): PowerShell
`New-ItemProperty ... -Force` writes the `Run` value; a failing command
(`psFail = some stderr`) is an error and the value is not written. -/
def enable_autostart_windows (env : OsEnv) (psFail : Option String)
    (s : AutostartState) : Except String Bool × AutostartState :=
  match env.exePath with
  | Except.error e => (Except.error ("Failed to get current executable path: " ++ e), s)
  | Except.ok _ =>
    match psFail with
    | none => (Except.ok true, { s with winRunValue := true })
    | some stderrText => (Except.error ("Failed to enable autostart: " ++ stderrText), s)

/-- `disable_autostart_windows` of lib.rs (lines 525-536): PowerShell
`Remove-ItemProperty` runs, its output is ignored (`let _output`), and the
function returns `Ok(true)` unconditionally; afterwards the value is gone
whether or not it existed. -/
def disable_autostart_windows (s : AutostartState) : Except String Bool × AutostartState :=
  (Except.ok true, { s with winRunValue := false })

/-- `is_autostart_enabled_windows` of lib.rs (lines 538-548): probes the `Run`
value; the probe's exit status is modelled as success exactly when the value
exists. -/
def is_autostart_enabled_windows (s : AutostartState) : Except String Bool :=
  Except.ok s.winRunValue

/-- `enable_autostart_linux` of lib.rs (lines 551-584): write the desktop
entry; no registration command, so success once the paths resolve. -/
def enable_autostart_linux (env : OsEnv) (s : AutostartState) :
    Except String Bool × AutostartState :=
  match env.exePath with
  | Except.error e => (Except.error ("Failed to get current executable path: " ++ e), s)
  | Except.ok _ =>
    match env.home with
    | Except.error _ => (Except.error "Failed to get home directory", s)
    | Except.ok _ => (Except.ok true, { s with linuxDesktop := true })

/-- `disable_autostart_linux` of lib.rs (lines 586-601): remove the desktop
entry when present; `Ok(true)` either way. -/
def disable_autostart_linux (env : OsEnv) (s : AutostartState) :
    Except String Bool × AutostartState :=
  match env.home with
  | Except.error _ => (Except.error "Failed to get home directory", s)
  | Except.ok _ =>
    if s.linuxDesktop then (Except.ok true, { s with linuxDesktop := false })
    else (Except.ok true, s)

/-- `is_autostart_enabled_linux` of lib.rs (lines 603-611). -/
def is_autostart_enabled_linux (env : OsEnv) (s : AutostartState) : Except String Bool :=
  match env.home with
  | Except.error _ => Except.error "Failed to get home directory"
  | Except.ok _ => Except.ok s.linuxDesktop

/-- Whether `p` occurs at the start of `s` (character lists). -/
def segStarts : List Char → List Char → Bool
  | [], _ => true
  | _ :: _, [] => false
  | a :: p, b :: s => a == b && segStarts p s

/-- Whether `p` occurs contiguously anywhere inside `s` (character lists):
substring occurrence, used to state what an error message contains. -/
def segIn (p : List Char) : List Char → Bool
  | [] => p.isEmpty
  | b :: t => segStarts p (b :: t) || segIn p t

/-- Whether `p` occurs at the end of `s` (character lists). -/
def segEnds (p s : List Char) : Bool := segStarts p.reverse s.reverse

/-- Concrete decoded envelope used by witnesses. -/
def respStub : OllamaResponse :=
  { model := "llama3", created_at := "2024-01-01T00:00:00Z", response := "ENHANCED",
    done := true, done_reason := none, context := none, total_duration := none,
    load_duration := none, prompt_eval_count := none, prompt_eval_duration := none,
    eval_count := none, eval_duration := none }

/-- Concrete successful HTTP reply used by witnesses. -/
def httpOkStub : HttpResponse :=
  { statusSuccess := true, statusText := "200 OK", body := "GOODBODY" }

/-- Concrete decoder used by witnesses: decodes exactly `httpOkStub`'s body. -/
def decodeStub : String → Except String OllamaResponse :=
  fun s => if s = "GOODBODY" then Except.ok respStub else Except.error "boom"

/-- Decoder that always fails, used by the decode-error theorems. -/
def decodeFailStub : String → Except String OllamaResponse :=
  fun _ => Except.error "boom"

/-- Model-list decoder that always fails, used by the decode-error theorems. -/
def decodeModelsFailStub : String → Except String ModelsResponse :=
  fun _ => Except.error "boomM"

/-- Concrete server used by witnesses: replies `httpOkStub` to everything. -/
def serverOkStub : OllamaRequest → SendOutcome :=
  fun _ => SendOutcome.response httpOkStub

/-- Concrete successful HTTP reply whose body no decoder accepts. -/
def httpRawBodyStub : HttpResponse :=
  { statusSuccess := true, statusText := "200 OK", body := "RAWBODY" }

/-- Concrete clipboard write capability that always succeeds. -/
def writeOkStub : String → Except String Unit := fun _ => Except.ok ()

/-- Concrete healthy configuration state with a model and a custom template. -/
def healthyState : AppState :=
  { ollama_url := "http://localhost:11434"
    model_name := LockState.healthy "llama3"
    system_prompt := LockState.healthy "sys" }

/-- Concrete state whose both mutexes are poisoned. -/
def poisonedState : AppState :=
  { ollama_url := "http://localhost:11434"
    model_name := LockState.poisoned ""
    system_prompt := LockState.poisoned "" }

/-- Concrete environment where both lookups succeed. -/
def envStub : OsEnv :=
  { exePath := Except.ok "/usr/local/bin/clip-prompt", home := Except.ok "/home/user" }

/-- Concrete artifact state with no registration on any platform. -/
def fsNone : AutostartState :=
  { macosPlist := false, winRunValue := false, linuxDesktop := false }

/-- C1: For every non-empty raw text, every model argument, and every server
reply whose body decodes into a well-formed `OllamaResponse` envelope,
`enhance_prompt` returns exactly the envelope's `response` field, with no
trimming, casing change, or other post-processing. -/
theorem enhance_prompt_returns_response_verbatim
    (dec : String → Except String OllamaResponse)
    (r : HttpResponse) (resp : OllamaResponse)
    (promptText : String) (model : Option String) (st : AppState)
    (c mn : String)
    (hne : promptText ≠ "")
    (hsp : st.system_prompt = LockState.healthy c)
    (hmn : st.model_name = LockState.healthy mn)
    (hok : r.statusSuccess = true)
    (hdec : dec r.body = Except.ok resp) :
    (enhance_prompt dec (fun _ => SendOutcome.response r) promptText model st).result
      = RustResult.ok resp.response := by
  cases model <;>
    simp [enhance_prompt, sendResult, hsp, hmn, hok, hdec]

/-- Witness for C1 at a concrete input: custom template `"sys"`, model
`"llama3"`, server replying `httpOkStub`, whose body decodes to `respStub`. -/
theorem enhance_prompt_returns_response_verbatim_witness :
    (enhance_prompt decodeStub (fun _ => SendOutcome.response httpOkStub) "hi"
        (some "llama3") healthyState).result = RustResult.ok respStub.response :=
  enhance_prompt_returns_response_verbatim decodeStub httpOkStub respStub "hi"
    (some "llama3") healthyState "sys" "llama3" (by decide) rfl rfl rfl rfl

/-- C2: For every clipboard content that is empty or whitespace-only, one
`handle_global_hotkey` run performs zero network calls, writes nothing to the
clipboard, emits the informational copy-text-first notice, and returns
`Ok(())` rather than an error. -/
theorem hotkey_empty_clipboard_no_effects
    (dec : String → Except String OllamaResponse)
    (srv : OllamaRequest → SendOutcome)
    (wr : String → Except String Unit)
    (st : AppState) (text : String)
    (h : isBlank text = true) :
    handle_global_hotkey dec srv wr (Except.ok text) st =
      (RustResult.ok (),
       { requests := [], clipboardWrites := [], notices := [copyFirstNotice] }) := by
  simp [handle_global_hotkey, h]

/-- Witness for C2 at a concrete input: clipboard holding a space, a tab, a
form feed (U+000C), a no-break space (U+00A0) and an ideographic space
(U+3000) — whitespace-only in Rust's Unicode sense — with a healthy
configured state. -/
theorem hotkey_empty_clipboard_no_effects_witness :
    handle_global_hotkey decodeStub serverOkStub writeOkStub
        (Except.ok " \t\x0C\u00A0\u3000") healthyState =
      (RustResult.ok (),
       { requests := [], clipboardWrites := [], notices := [copyFirstNotice] }) :=
  hotkey_empty_clipboard_no_effects decodeStub serverOkStub writeOkStub
    healthyState " \t\x0C\u00A0\u3000" (by decide)

/-- C7: For every `handle_global_hotkey` run where the clipboard text is
non-blank and the configured model name is empty, the pipeline sends no
request (so nothing auto-selects a model), writes nothing to the clipboard,
emits the no-model notice, and ends that trigger's processing with `Ok(())`. -/
theorem hotkey_empty_model_no_call
    (dec : String → Except String OllamaResponse)
    (srv : OllamaRequest → SendOutcome)
    (wr : String → Except String Unit)
    (st : AppState) (text : String)
    (ht : isBlank text = false)
    (hm : st.model_name = LockState.healthy "") :
    handle_global_hotkey dec srv wr (Except.ok text) st =
      (RustResult.ok (),
       { requests := [], clipboardWrites := [], notices := [noModelNotice] }) := by
  simp [handle_global_hotkey, ht, hm, String.isEmpty_iff]

/-- Witness for C7 at a concrete input: clipboard `"hello"`, model unset (the
process-start state). -/
theorem hotkey_empty_model_no_call_witness :
    handle_global_hotkey decodeStub serverOkStub writeOkStub
        (Except.ok "hello") initialState =
      (RustResult.ok (),
       { requests := [], clipboardWrites := [], notices := [noModelNotice] }) :=
  hotkey_empty_model_no_call decodeStub serverOkStub writeOkStub
    initialState "hello" (by decide) rfl

/-- C10: For every `enhance_prompt` call with no model argument and an empty
configured model name, the request is still sent, carrying the hardcoded
fallback model `"mistral:7b"`; no configuration error is raised. -/
theorem enhance_fallback_model_mistral
    (dec : String → Except String OllamaResponse)
    (srv : OllamaRequest → SendOutcome)
    (promptText : String) (st : AppState) (c : String)
    (hsp : st.system_prompt = LockState.healthy c)
    (hmn : st.model_name = LockState.healthy "") :
    (enhance_prompt dec srv promptText none st).sent
      = some { model := "mistral:7b"
               prompt := full_prompt (if c.isEmpty then DEFAULT_SYSTEM_PROMPT else c) promptText
               stream := false } := by
  simp [enhance_prompt, hsp, hmn, String.isEmpty_iff]

/-- Witness for C10 at a concrete input: the process-start state (no model,
no override), raw text `"hi"`. -/
theorem enhance_fallback_model_mistral_witness :
    (enhance_prompt decodeStub serverOkStub "hi" none initialState).sent
      = some { model := "mistral:7b"
               prompt := full_prompt DEFAULT_SYSTEM_PROMPT "hi"
               stream := false } :=
  enhance_fallback_model_mistral decodeStub serverOkStub "hi" initialState "" rfl rfl

/-- C5, counterexample: a concrete run of `enhance_prompt` where the server's
body `"RAWBODY"` fails to decode with parse error `"boom"`.  The returned
decode error is `"Failed to parse response: boom"`, which does not contain the
raw response body, contradicting the claim that both the parse error and the
raw body are surfaced. -/
theorem enhance_decode_error_omits_body_cex :
    (enhance_prompt decodeFailStub (fun _ => SendOutcome.response httpRawBodyStub)
        "hi" none healthyState).result
      = RustResult.err "Failed to parse response: boom"
    ∧ segIn "RAWBODY".data "Failed to parse response: boom".data = false :=
  ⟨rfl, by decide⟩

/-- C5, amended: when the reply body fails structured decoding,
`enhance_prompt` returns a decode error carrying the parse error only (the
raw body is not included), while `get_available_models`' decode error carries
both the parse error and the raw body. -/
theorem decode_error_message_shapes_amended
    (dec : String → Except String OllamaResponse)
    (decM : String → Except String ModelsResponse)
    (r : HttpResponse) (e eM : String)
    (promptText m : String) (st : AppState) (c : String)
    (hsp : st.system_prompt = LockState.healthy c)
    (hok : r.statusSuccess = true)
    (hdec : dec r.body = Except.error e)
    (hdecM : decM r.body = Except.error eM) :
    (enhance_prompt dec (fun _ => SendOutcome.response r) promptText (some m) st).result
      = RustResult.err ("Failed to parse response: " ++ e)
    ∧ get_available_models decM (fun _ => SendOutcome.response r)
      = Except.error ("Failed to parse models: " ++ eM ++ " (response: " ++ r.body ++ ")") := by
  constructor
  · simp [enhance_prompt, sendResult, hsp, hok, hdec]
  · simp [get_available_models, hdecM]

/-- Witness for the amended C5 at a concrete input: body `"RAWBODY"`, parse
errors `"boom"` and `"boomM"`. -/
theorem decode_error_message_shapes_amended_witness :
    (enhance_prompt decodeFailStub (fun _ => SendOutcome.response httpRawBodyStub)
        "hi" (some "llama3") healthyState).result
      = RustResult.err ("Failed to parse response: " ++ "boom")
    ∧ get_available_models decodeModelsFailStub (fun _ => SendOutcome.response httpRawBodyStub)
      = Except.error ("Failed to parse models: " ++ "boomM" ++ " (response: " ++ httpRawBodyStub.body ++ ")") :=
  decode_error_message_shapes_amended decodeFailStub decodeModelsFailStub
    httpRawBodyStub "boom" "boomM" "hi" "llama3" healthyState "sys" rfl rfl rfl rfl

/-- C6, counterexample: with template `"T"` and raw text `"R"` the rendered
prompt does not end with the raw text (a fixed marker is appended after it),
so it is not the bare concatenation template ++ delimiter ++ raw text. -/
theorem full_prompt_not_bare_concatenation_cex :
    segEnds "R".data (full_prompt "T" "R").data = false
    ∧ full_prompt "T" "R" ≠ "T" ++ "\n\nUser input: " ++ "R" :=
  ⟨by decide, by decide⟩

/-- C6, amended: the prompt `enhance_prompt` hands to the transport is the
instruction template (the stored override, or the built-in default when the
override is empty), then the fixed delimiter `"\n\nUser input: "`, then the
raw user text, then the fixed trailing marker `"\n\nEnhanced prompt:"` —
template before raw text, with a constant suffix appended after the text. -/
theorem enhance_sends_template_delim_text_suffix
    (dec : String → Except String OllamaResponse)
    (srv : OllamaRequest → SendOutcome)
    (promptText m : String) (st : AppState) (c : String)
    (hsp : st.system_prompt = LockState.healthy c) :
    ((enhance_prompt dec srv promptText (some m) st).sent).map OllamaRequest.prompt
      = some ((if c.isEmpty then DEFAULT_SYSTEM_PROMPT else c)
          ++ "\n\nUser input: " ++ promptText ++ "\n\nEnhanced prompt:") := by
  simp [enhance_prompt, full_prompt, hsp]

/-- Witness for the amended C6 at a concrete input: override `"sys"`, raw
text `"hello"`, model `"llama3"`. -/
theorem enhance_sends_template_delim_text_suffix_witness :
    ((enhance_prompt decodeStub serverOkStub "hello" (some "llama3") healthyState).sent).map
        OllamaRequest.prompt
      = some ("sys" ++ "\n\nUser input: " ++ "hello" ++ "\n\nEnhanced prompt:") :=
  enhance_sends_template_delim_text_suffix decodeStub serverOkStub "hello" "llama3"
    healthyState "sys" rfl

/-- C4, counterexample: with both configuration mutexes poisoned, a concrete
`enhance_prompt` call panics (`lock().unwrap()` at lib.rs line 120) instead of
failing with an error surfaced to the caller, contradicting the claim that a
poisoned lock never panics any of the listed operations. -/
theorem enhance_prompt_poisoned_lock_panics_cex :
    (enhance_prompt decodeStub serverOkStub "hi" none poisonedState).result
      = RustResult.panicked
    ∧ (handle_global_hotkey decodeStub serverOkStub writeOkStub
        (Except.ok "hello") poisonedState).1 = RustResult.panicked :=
  ⟨rfl, by simp [handle_global_hotkey, poisonedState, (by decide : isBlank "hello" = false)]⟩

/-- C4, amended: a poisoned configuration lock makes `update_model`,
`update_system_prompt`, `get_system_prompt` and `reset_system_prompt` fail
with an error surfaced to the caller, without panicking and leaving the state
unchanged; but `enhance_prompt` (its `system_prompt` read, and its
`model_name` read when no model argument is given) and the hotkey pipeline's
model read panic via `.unwrap()` instead of surfacing an error. -/
theorem poisoned_lock_error_surfacing_amended
    (dec : String → Except String OllamaResponse)
    (srv : OllamaRequest → SendOutcome)
    (wr : String → Except String Unit)
    (st : AppState) (mv pv x text : String)
    (hm : st.model_name = LockState.poisoned mv)
    (hp : st.system_prompt = LockState.poisoned pv)
    (ht : isBlank text = false) :
    update_model x st = (RustResult.err "Failed to update model", st)
    ∧ update_system_prompt x st = (RustResult.err "Failed to update system prompt", st)
    ∧ get_system_prompt st = RustResult.err "Failed to get system prompt"
    ∧ reset_system_prompt st = (RustResult.err "Failed to reset system prompt", st)
    ∧ (enhance_prompt dec srv x none st).result = RustResult.panicked
    ∧ (handle_global_hotkey dec srv wr (Except.ok text) st).1 = RustResult.panicked := by
  refine ⟨?_, ?_, ?_, ?_, ?_, ?_⟩
  · simp [update_model, hm]
  · simp [update_system_prompt, hp]
  · simp [get_system_prompt, hp]
  · simp [reset_system_prompt, hp]
  · simp [enhance_prompt, hp]
  · simp [handle_global_hotkey, hm, ht]

/-- Witness for the amended C4 at a concrete input: the doubly-poisoned state,
argument `"x"`, clipboard text `"hello"`. -/
theorem poisoned_lock_error_surfacing_amended_witness :
    update_model "x" poisonedState = (RustResult.err "Failed to update model", poisonedState)
    ∧ update_system_prompt "x" poisonedState
      = (RustResult.err "Failed to update system prompt", poisonedState)
    ∧ get_system_prompt poisonedState = RustResult.err "Failed to get system prompt"
    ∧ reset_system_prompt poisonedState
      = (RustResult.err "Failed to reset system prompt", poisonedState)
    ∧ (enhance_prompt decodeStub serverOkStub "x" none poisonedState).result
      = RustResult.panicked
    ∧ (handle_global_hotkey decodeStub serverOkStub writeOkStub
        (Except.ok "hello") poisonedState).1 = RustResult.panicked :=
  poisoned_lock_error_surfacing_amended decodeStub serverOkStub writeOkStub
    poisonedState "" "" "x" "hello" rfl rfl (by decide)

/-- C3: For each platform variant and from any prior artifact state, with the
executable path and home directory resolvable, enabling and then immediately
querying reports `true` (on macOS even when `launchctl load` fails, since the
plist is written first; on Windows when the registry-write command succeeds),
and disabling and then immediately querying reports `false`. -/
theorem autostart_enable_disable_query_coherent
    (env : OsEnv) (s : AutostartState) (loadFail : Option String)
    (px hx : String)
    (hexe : env.exePath = Except.ok px) (hhome : env.home = Except.ok hx) :
    is_autostart_enabled_macos env (enable_autostart_macos env loadFail s).2 = Except.ok true
    ∧ is_autostart_enabled_macos env (disable_autostart_macos env s).2 = Except.ok false
    ∧ is_autostart_enabled_windows (enable_autostart_windows env none s).2 = Except.ok true
    ∧ is_autostart_enabled_windows (disable_autostart_windows s).2 = Except.ok false
    ∧ is_autostart_enabled_linux env (enable_autostart_linux env s).2 = Except.ok true
    ∧ is_autostart_enabled_linux env (disable_autostart_linux env s).2 = Except.ok false := by
  refine ⟨?_, ?_, ?_, ?_, ?_, ?_⟩ <;>
    cases loadFail <;>
      simp [is_autostart_enabled_macos, enable_autostart_macos, disable_autostart_macos,
        is_autostart_enabled_windows, enable_autostart_windows, disable_autostart_windows,
        is_autostart_enabled_linux, enable_autostart_linux, disable_autostart_linux,
        hexe, hhome] <;>
      split <;> simp_all

/-- Witness for C3 at a concrete input: resolvable environment, no prior
registration, `launchctl load` succeeding. -/
theorem autostart_enable_disable_query_coherent_witness :
    is_autostart_enabled_macos envStub (enable_autostart_macos envStub none fsNone).2 = Except.ok true
    ∧ is_autostart_enabled_macos envStub (disable_autostart_macos envStub fsNone).2 = Except.ok false
    ∧ is_autostart_enabled_windows (enable_autostart_windows envStub none fsNone).2 = Except.ok true
    ∧ is_autostart_enabled_windows (disable_autostart_windows fsNone).2 = Except.ok false
    ∧ is_autostart_enabled_linux envStub (enable_autostart_linux envStub fsNone).2 = Except.ok true
    ∧ is_autostart_enabled_linux envStub (disable_autostart_linux envStub fsNone).2 = Except.ok false :=
  autostart_enable_disable_query_coherent envStub fsNone none
    "/usr/local/bin/clip-prompt" "/home/user" rfl rfl

/-- C9: For each platform variant, calling disable when no registration
artifact exists (never enabled, or already disabled) returns `Ok(true)` and
leaves the state as it was, provided the home directory resolves (macOS and
Linux read it before anything else). -/
theorem disable_autostart_noop_success
    (env : OsEnv) (s : AutostartState) (hx : String)
    (hhome : env.home = Except.ok hx)
    (hmac : s.macosPlist = false)
    (hwin : s.winRunValue = false)
    (hlin : s.linuxDesktop = false) :
    disable_autostart_macos env s = (Except.ok true, s)
    ∧ disable_autostart_windows s = (Except.ok true, s)
    ∧ disable_autostart_linux env s = (Except.ok true, s) := by
  obtain ⟨mp, wv, ld⟩ := s
  subst hmac hwin hlin
  refine ⟨?_, ?_, ?_⟩ <;>
    simp [disable_autostart_macos, disable_autostart_windows, disable_autostart_linux, hhome]

/-- Witness for C9 at a concrete input: resolvable home, no artifact on any
platform. -/
theorem disable_autostart_noop_success_witness :
    disable_autostart_macos envStub fsNone = (Except.ok true, fsNone)
    ∧ disable_autostart_windows fsNone = (Except.ok true, fsNone)
    ∧ disable_autostart_linux envStub fsNone = (Except.ok true, fsNone) :=
  disable_autostart_noop_success envStub fsNone "/home/user" rfl rfl rfl rfl

/-- Splitting a command sequence: applying a concatenation is applying the two
halves in order. -/
theorem applyOps_append (l1 l2 : List ConfigOp) (s : AppState) :
    applyOps (l1 ++ l2) s = applyOps l2 (applyOps l1 s) := by
  induction l1 generalizing s with
  | nil => rfl
  | cons op rest ih => simp [applyOps, ih]

/-- `update_model` never touches the `system_prompt` cell. -/
theorem update_model_keeps_system_prompt (m : String) (s : AppState) :
    ((update_model m s).2).system_prompt = s.system_prompt := by
  cases h : s.model_name <;> simp [update_model, h]

/-- Configuration commands keep the `system_prompt` cell healthy. -/
theorem applyOps_sysPrompt_healthy (ops : List ConfigOp) (s : AppState) (v : String)
    (hs : s.system_prompt = LockState.healthy v) :
    ∃ w, (applyOps ops s).system_prompt = LockState.healthy w := by
  induction ops generalizing s v with
  | nil => exact ⟨v, hs⟩
  | cons op rest ih =>
    cases op with
    | updModel m =>
      exact ih (applyOp (ConfigOp.updModel m) s) v
        (by simpa [applyOp, update_model_keeps_system_prompt] using hs)
    | updPrompt p =>
      exact ih (applyOp (ConfigOp.updPrompt p) s) p
        (by simp [applyOp, update_system_prompt, hs])
    | resetPrompt =>
      exact ih (applyOp ConfigOp.resetPrompt s) ""
        (by simp [applyOp, reset_system_prompt, hs])

/-- As long as no command sets a template override, an empty (healthy)
`system_prompt` cell stays empty: `update_model` does not touch it and
`reset_system_prompt` rewrites it to the empty string. -/
theorem applyOps_sysPrompt_stable : ∀ (ops : List ConfigOp) (s : AppState),
    (∀ o ∈ ops, o.setsTemplate = false) →
    s.system_prompt = LockState.healthy "" →
    (applyOps ops s).system_prompt = LockState.healthy "" := by
  intro ops
  induction ops with
  | nil => exact fun s _ hs => hs
  | cons op rest ih =>
    intro s h hs
    have hrest : ∀ o ∈ rest, o.setsTemplate = false :=
      fun o ho => h o (List.mem_cons_of_mem _ ho)
    cases op with
    | updModel m =>
      exact ih (applyOp (ConfigOp.updModel m) s) hrest
        (by simpa [applyOp, update_model_keeps_system_prompt] using hs)
    | updPrompt p =>
      exact absurd (h (ConfigOp.updPrompt p) (List.mem_cons_self _ _))
        (by simp [ConfigOp.setsTemplate])
    | resetPrompt =>
      exact ih (applyOp ConfigOp.resetPrompt s) hrest
        (by simp [applyOp, reset_system_prompt, hs])

/-- C8: `get_system_prompt` returns the built-in default text whenever no
override has been set since process start (any sequence of commands none of
which is `update_system_prompt`), and whenever `reset_system_prompt` was the
most recent template mutation (any prefix of commands, then reset, then
commands none of which sets a template). -/
theorem get_system_prompt_default_cases
    (ops tail : List ConfigOp)
    (htail : ∀ o ∈ tail, o.setsTemplate = false) :
    ((∀ o ∈ ops, o.setsTemplate = false) →
      get_system_prompt (applyOps ops initialState) = RustResult.ok DEFAULT_SYSTEM_PROMPT)
    ∧ get_system_prompt (applyOps (ops ++ ConfigOp.resetPrompt :: tail) initialState)
      = RustResult.ok DEFAULT_SYSTEM_PROMPT := by
  constructor
  · intro hops
    have h := applyOps_sysPrompt_stable ops initialState hops rfl
    simp [get_system_prompt, h, String.isEmpty_iff]
  · obtain ⟨w, hw⟩ := applyOps_sysPrompt_healthy ops initialState "" rfl
    rw [applyOps_append]
    have h2 := applyOps_sysPrompt_stable tail
      (applyOp ConfigOp.resetPrompt (applyOps ops initialState)) htail
      (by simp [applyOp, reset_system_prompt, hw])
    have hstep : applyOps (ConfigOp.resetPrompt :: tail) (applyOps ops initialState)
        = applyOps tail (applyOp ConfigOp.resetPrompt (applyOps ops initialState)) := rfl
    rw [hstep]
    simp [get_system_prompt, h2, String.isEmpty_iff]

/-- Witness for C8 at a concrete input: an override is set, then reset, then
the model changes; the getter returns the built-in default. -/
theorem get_system_prompt_default_cases_witness :
    get_system_prompt (applyOps ([ConfigOp.updPrompt "OVR"]
        ++ ConfigOp.resetPrompt :: [ConfigOp.updModel "m"]) initialState)
      = RustResult.ok DEFAULT_SYSTEM_PROMPT :=
  (get_system_prompt_default_cases [ConfigOp.updPrompt "OVR"] [ConfigOp.updModel "m"]
    (by decide)).2
